import Mathlib

/-!
Shallow embedding of the co-pilot content-publishing backend
(request validation, authentication gate, login/registration flow,
and article retrieval handlers), with theorems checking the
natural-language specification against the code.
-/

/-- A JSON-like value, as produced by the handlers' `res.json(...)` calls. -/
inductive JVal where
  | null
  | num (n : Int)
  | str (s : String)
  | bool (b : Bool)
  | arr (xs : List JVal)
  | obj (fields : List (String × JVal))

/-- An HTTP response: status code plus a JSON object body (list of fields). -/
structure Response where
  code : Nat
  body : List (String × JVal)

/-- Look up a top-level field of the response body. -/
def Response.field (r : Response) (k : String) : Option JVal :=
  r.body.lookup k

/-- Whether the response body has a top-level field named `k`. -/
def Response.hasField (r : Response) (k : String) : Bool :=
  (r.body.lookup k).isSome

/- ### 4.1 Schema Validator (src/middlewares/validate + Joi rule sets)

The middleware is

    const validate = (schema) => (req, res, next) => {
        const { error } = schema.validate(req.body);
        if (error) {
            return res.status(400).json({
                status: 0,
                message: error.details[0].message
            });
        }
        next();
    };

A Joi schema with the default `abortEarly: true` stops at the first
failing rule in declaration order, and `error.details[0].message` is that
first failing rule's message.  We embed a rule set as an ordered list of
named checks with messages, and `schema.validate` as first-failure search. -/

/-- One declared validation rule: a field name, a boolean check on the
whole input record, and the human-readable message reported on failure. -/
structure Rule (α : Type) where
  field : String
  check : α → Bool
  message : String

/-- `schema.validate input` under Joi's default abort-early behaviour:
the first rule (in declaration order) whose check fails, if any. -/
def firstError {α : Type} (rules : List (Rule α)) (input : α) : Option (Rule α) :=
  rules.find? (fun r => ! r.check input)

/-- The 400 response the middleware sends on a validation failure. -/
def badRequest (msg : String) : Response :=
  { code := 400, body := [("status", .num 0), ("message", .str msg)] }

/-- The `validate` middleware (src/middlewares/validate): runs the schema
on the body; on error responds 400 with the first error's message and does
not call the handler; otherwise calls the handler on the untouched store. -/
def validateMW {α σ : Type} (rules : List (Rule α))
    (handler : α → σ → Response × σ) (input : α) (store : σ) : Response × σ :=
  match firstError rules input with
  | some r => (badRequest r.message, store)
  | none => handler input store

/- ### 4.3 Token Issuer/Verifier

The repository calls `jwt.sign(claims, process.env.JWT_SECRET,
{ expiresIn: '1h' })` (src/controllers/authController.js lines 43-47 and
108-112) and `jwt.verify(token, process.env.JWT_SECRET)` (line 163).  The
jsonwebtoken library itself is not part of the repository, so its
behaviour is modelled from the spec (section 4.3). -/

/-- The TTL the repository passes to `jwt.sign` as `expiresIn: '1h'`,
in seconds. -/
def tokenTTL : Nat := 3600

/-- The subject claims the repository signs: `{ id, email }`. -/
structure Claims where
  id : Nat
  email : String
deriving Repr, DecidableEq

/-- Modelled from the spec: a signed token produced by the Token Issuer
(spec 4.3) — the jsonwebtoken internals are not in the repository.  It
encodes the subject claims, the issued-at time, the expiry, and a
signature over its contents under the signing secret. -/
structure Token where
  claims : Claims
  iat : Nat
  exp : Nat
  sig : String
deriving Repr, DecidableEq

/-- Modelled from the spec: the signature over a token's contents under a
secret ("Signing uses a secret held in process-wide configuration"). -/
def signPayload (secret : String) (c : Claims) (iat exp : Nat) : String :=
  secret ++ "|" ++ toString c.id ++ "|" ++ c.email ++ "|" ++ toString iat
    ++ "|" ++ toString exp

/-- Modelled from the spec: `issue(subjectClaims) -> token` (spec 4.3),
with the TTL the repository passes (`expiresIn: '1h'`): expiry is
issued-at plus `tokenTTL`. -/
def issue (secret : String) (c : Claims) (now : Nat) : Token :=
  { claims := c, iat := now, exp := now + tokenTTL
    sig := signPayload secret c now (now + tokenTTL) }

/-- The failure modes of token verification (spec 4.3 and 7). -/
inductive VerifyError where
  | InvalidSignature
  | Expired
  | Malformed
deriving Repr, DecidableEq

/-- Modelled from the spec: `verify(token) -> Result<claims, Error>`
(spec 4.3): `InvalidSignature` if the signature does not match,
`Expired` if current time exceeds the encoded expiry, claims otherwise. -/
def verifyTok (secret : String) (t : Token) (now : Nat) :
    Except VerifyError Claims :=
  if t.sig ≠ signPayload secret t.claims t.iat t.exp then
    .error .InvalidSignature
  else if t.exp < now then
    .error .Expired
  else
    .ok t.claims

/- ### The user store (src/models/userModel, accessed via findOne/save) -/

/-- A stored user record: `{ _id, name, email, password }` where
`password` holds the digest (hashed via the pre-save hook). -/
structure User where
  id : Nat
  name : String
  email : String
  password : String
deriving Repr, DecidableEq

/-- `User.findOne({ email })`: the first stored user with that email. -/
def findOneByEmail (store : List User) (email : String) : Option User :=
  store.find? (fun u => u.email == email)

/- ### 4.5 Login (src/controllers/authController.js lines 85-136) -/

/-- The 401 response sent both when the email is unknown and when the
password does not match. -/
def invalidCredentials : Response :=
  { code := 401
    body := [("status", .num 0), ("message", .str "Invalid credentials")] }

/-- The public profile object `{ id, email, name }` the auth handlers
place in their success responses. -/
def userView (u : User) : JVal :=
  .obj [("id", .num u.id), ("email", .str u.email), ("name", .str u.name)]

/-- A wire encoding of a token for embedding it in a response body. -/
def encodeToken (t : Token) : String :=
  toString t.claims.id ++ "." ++ t.claims.email ++ "." ++ toString t.iat
    ++ "." ++ toString t.exp ++ "." ++ t.sig

/-- `login` (src/controllers/authController.js lines 85-136): look up the
email; if absent, 401 invalid credentials; verify the password with
`bcrypt.compare` (abstracted as `cmp plaintext digest`); on mismatch, the
same 401; otherwise sign a token and answer 200 with token and profile. -/
def login (store : List User) (email password : String)
    (cmp : String → String → Bool) (secret : String) (now : Nat) : Response :=
  match findOneByEmail store email with
  | none => invalidCredentials
  | some u =>
    if ! cmp password u.password then invalidCredentials
    else
      let token := issue secret { id := u.id, email := u.email } now
      { code := 200
        body := [("status", .num 1), ("message", .str "Login successful"),
          ("data", .obj [("token", .str (encodeToken token)),
                         ("user", userView u)])] }

/- ### 4.5 Register (src/controllers/authController.js lines 19-70) -/

/-- `register` (src/controllers/authController.js lines 19-70): if the
email is already stored, 400 "Email already in use" and the store is
unchanged; otherwise persist the user (password hashed by the pre-save
hook, abstracted as `hash`), sign a token, and answer 201 with token and
the public profile.  `freshId` stands for the `_id` the store assigns. -/
def register (store : List User) (name email password : String)
    (hash : String → String) (secret : String) (now : Nat) (freshId : Nat) :
    Response × List User :=
  match findOneByEmail store email with
  | some _ =>
    ({ code := 400
       body := [("status", .num 0), ("message", .str "Email already in use")] },
     store)
  | none =>
    let u : User :=
      { id := freshId, name := name, email := email, password := hash password }
    let token := issue secret { id := freshId, email := email } now
    ({ code := 201
       body := [("status", .num 1), ("message", .str "Registration successful"),
         ("data", .obj [("token", .str (encodeToken token)),
                        ("user", userView u)])] },
     store ++ [u])

/- ### 4.4 Authentication gate (src/controllers/authController.js 150-174)

The gate computes `req.header('Authorization')?.replace('Bearer ', '')`.
JavaScript's `String.replace` with a string pattern removes only the FIRST
occurrence of the pattern, anywhere in the string. -/

/-- The characters of the pattern `'Bearer '` (with trailing space). -/
def bearerChars : List Char := "Bearer ".data

/-- JavaScript `s.replace(pat, '')` for a string pattern: remove the first
occurrence of `pat` from `s`, leaving the rest verbatim. -/
def replaceFirst (pat : List Char) : List Char → List Char
  | [] => []
  | c :: rest =>
    if pat.isPrefixOf (c :: rest) then List.drop pat.length (c :: rest)
    else c :: replaceFirst pat rest

/-- Whether `pat` occurs as a contiguous subsequence of the string. -/
def containsSeq (pat : List Char) : List Char → Bool
  | [] => pat.isEmpty
  | c :: rest => pat.isPrefixOf (c :: rest) || containsSeq pat rest

/-- Token extraction (line 153 plus the `!token` check at line 155):
absent header, or a header whose remainder after removing the first
`'Bearer '` is empty, yields no token. -/
def extractToken (header : Option String) : Option String :=
  match header with
  | none => none
  | some h =>
    let t : String := ⟨replaceFirst bearerChars h.data⟩
    if t = "" then none else some t

/-- The 401 sent when no token was extracted. -/
def noTokenResp : Response :=
  { code := 401
    body := [("status", .num 0), ("message", .str "No token provided")] }

/-- The 401 sent when `jwt.verify` throws. -/
def invalidTokenResp : Response :=
  { code := 401
    body := [("status", .num 0), ("message", .str "Invalid token")] }

/-- Outcome of the gate: a rejection response, or `next()` with the
decoded identity attached to `req.user`. -/
inductive GateOutcome where
  | rejected (resp : Response)
  | authorized (user : Claims)

/-- `verifyToken` (src/controllers/authController.js lines 150-174):
extract the token; if none, 401 "No token provided"; else run
`jwt.verify` (abstracted as `vf`); on failure 401 "Invalid token";
on success attach the decoded claims and proceed. -/
def verifyToken (header : Option String)
    (vf : String → Except VerifyError Claims) : GateOutcome :=
  match extractToken header with
  | none => .rejected noTokenResp
  | some t =>
    match vf t with
    | .error _ => .rejected invalidTokenResp
    | .ok decoded => .authorized decoded

/-- The protected test route handler (src/routes/auth.js): after the gate
authorizes, it answers `res.json({ message: 'Authenticated successfully',
user: req.user })` — a 200 whose body has no status field. -/
def testAuth (user : Claims) : Response :=
  { code := 200
    body := [("message", .str "Authenticated successfully"),
             ("user", .obj [("id", .num user.id),
                            ("email", .str user.email)])] }

/- ### Process startup (src/index.js)

`index.js` reads the environment with `dotenv.config()`, wires the
middleware and routes, calls `connectDB(process.env.MONGODB_URI)` and then
unconditionally calls `app.listen(PORT)` with `PORT = process.env.PORT ||
5000`.  No configuration value is checked before the server starts. -/

/-- The configuration read from the environment at process start. -/
structure Config where
  jwtSecret : Option String
  mongodbUri : Option String
  port : Option Nat

/-- What startup can end in. -/
inductive StartupResult where
  | listening (port : Nat)
deriving Repr, DecidableEq

/-- `startup` (src/index.js): routes are mounted and `app.listen` is
called unconditionally; the port defaults to 5000. -/
def startup (cfg : Config) : StartupResult :=
  .listening (cfg.port.getD 5000)

/- ### The article domain (src/models and src/controllers) -/

/-- An author document (src/models/authorModel). -/
structure Author where
  oid : String
  authorId : String
  authorName : String
  authorImage : String
  description : String
deriving Repr, DecidableEq

/-- A category document (src/models/categoryModel). -/
structure Category where
  oid : String
  categoryId : String
  categoryName : String
deriving Repr, DecidableEq

/-- An article document (src/models/articleModel); `category` and
`author` hold ObjectId references. -/
structure Article where
  oid : String
  title : String
  subtitle : Option String
  articleImage : String
  articleType : String
  description : Option String
  mediaUrl : Option String
  category : String
  tags : List String
  author : String
  publishDate : Nat
deriving Repr, DecidableEq

/-- The document store the article handlers query. -/
structure Db where
  authors : List Author
  categories : List Category
  articles : List Article
deriving Repr, DecidableEq

/- ### getArticles (src/controllers/articleController.js lines 27-104) -/

/-- The query parameters of `GET /api/articles`; `none` means the
parameter was absent from the request. -/
structure ArticlesQuery where
  page : Option Nat
  categoryId : Option String
  tag : Option String
  authorName : Option String
  articleType : Option String
  limit : Option Nat
deriving Repr, DecidableEq

/-- `parseInt(req.query.limit) || 10`: an absent, unparsable, or zero
limit falls back to 10. -/
def effLimit (q : ArticlesQuery) : Nat :=
  match q.limit with
  | none => 10
  | some n => if n = 0 then 10 else n

/-- `const { page = 1, ... } = req.query`. -/
def effPage (q : ArticlesQuery) : Nat := q.page.getD 1

/-- Outcome of the categoryId handling block (lines 36-46). -/
inductive CatResolution where
  | noFilter
  | notFound
  | filterOid (oid : String)
deriving Repr, DecidableEq

/-- Lines 36-46: a valid ObjectId is used directly as the category
filter; otherwise the category is looked up by its `categoryId` string,
and a missing category short-circuits to 404. -/
def resolveCategory (db : Db) (isValidOid : String → Bool)
    (q : ArticlesQuery) : CatResolution :=
  match q.categoryId with
  | none => .noFilter
  | some cid =>
    if isValidOid cid then .filterOid cid
    else
      match db.categories.find? (fun c => c.categoryId == cid) with
      | none => .notFound
      | some c => .filterOid c.oid

/-- The Mongo filter built at lines 33-49: category equality, tag
membership, articleType equality. -/
def matchesQuery (catFilter : Option String) (q : ArticlesQuery)
    (a : Article) : Bool :=
  (match catFilter with | none => true | some oid => a.category == oid) &&
  (match q.tag with | none => true | some t => a.tags.contains t) &&
  (match q.articleType with | none => true | some ty => a.articleType == ty)

/-- Insert an article into a list sorted by descending `publishDate`. -/
def insertByDate (a : Article) : List Article → List Article
  | [] => [a]
  | b :: rest =>
    if a.publishDate ≥ b.publishDate then a :: b :: rest
    else b :: insertByDate a rest

/-- `.sort({ publishDate: -1 })`: sort by descending publish date. -/
def sortByDateDesc : List Article → List Article
  | [] => []
  | a :: rest => insertByDate a (sortByDateDesc rest)

/-- Case-insensitive string equality, as the `^name$` case-insensitive
regex used in the populate match. -/
def eqCI (a b : String) : Bool := a.toLower == b.toLower

/-- `.populate({ path: 'author', match: ... })` (lines 54-57): resolve
the author reference; when `authorName` was given, a populated author
whose name does not match case-insensitively becomes `null`. -/
def populatedAuthor (db : Db) (q : ArticlesQuery) (a : Article) :
    Option Author :=
  match db.authors.find? (fun au => au.oid == a.author) with
  | none => none
  | some au =>
    match q.authorName with
    | none => some au
    | some nm => if eqCI au.authorName nm then some au else none

/-- An optional string rendered as `x || null` in a response body. -/
def optStr : Option String → JVal
  | none => .null
  | some s => .str s

/-- One formatted article in the success payload (lines 75-86). -/
def formatArticle (db : Db) (q : ArticlesQuery) (a : Article) : JVal :=
  let cat := db.categories.find? (fun c => c.oid == a.category)
  let au := populatedAuthor db q a
  .obj [
    ("title", .str a.title),
    ("hero", .str a.articleImage),
    ("categoryId", match cat with | some c => .str c.categoryId | none => .null),
    ("categoryObjectId", match cat with | some c => .str c.oid | none => .null),
    ("authorId", match au with | some x => .str x.authorId | none => .null),
    ("authorObjectId", match au with | some x => .str x.oid | none => .null),
    ("articleObjectId", .str a.oid),
    ("articleType", .num (if a.articleType == "text" then 1
                          else if a.articleType == "audio" then 2 else 3)),
    ("tags", .arr (a.tags.map JVal.str)),
    ("publishDate", .num a.publishDate)]

/-- The page of articles the handler ends up with before the emptiness
check (lines 52-68): filter, sort by date descending, skip/limit, then
the author post-filter when `authorName` was given. -/
def selectedArticles (db : Db) (catFilter : Option String)
    (q : ArticlesQuery) : List Article :=
  let fetched :=
    (((sortByDateDesc db.articles).filter (matchesQuery catFilter q)).drop
        ((effPage q - 1) * effLimit q)).take (effLimit q)
  match q.authorName with
  | none => fetched
  | some _ => fetched.filter (fun a => (populatedAuthor db q a).isSome)

/-- The 404 sent when the selected page is empty (lines 70-72). -/
def noArticlesResp : Response :=
  { code := 404
    body := [("status", .num 0), ("message", .str "No articles found")] }

/-- The 404 sent when the category filter cannot be resolved (line 42). -/
def categoryNotFoundResp : Response :=
  { code := 404
    body := [("status", .num 0), ("message", .str "Category not found")] }

/-- The continuation of `getArticles` once the category filter resolved.
`skip = (page - 1) * limit` is computed in JavaScript arithmetic: a page
of 0 makes it negative and the store rejects the query (caught as 500). -/
def getArticlesWithFilter (db : Db) (q : ArticlesQuery)
    (catFilter : Option String) : Response :=
  if (effPage q : Int) - 1 < 0 then
    { code := 500
      body := [("status", .num 0),
               ("message", .str "Skip value must be non-negative")] }
  else
    let arts := selectedArticles db catFilter q
    if arts.length = 0 then noArticlesResp
    else
      let total := (db.articles.filter (matchesQuery catFilter q)).length
      let lim := effLimit q
      { code := 200
        body := [("status", .num 1), ("message", .str "success"),
          ("data", .obj [
            ("articles", .arr (arts.map (formatArticle db q))),
            ("categoryId", optStr q.categoryId),
            ("tag", optStr q.tag),
            ("authorName", optStr q.authorName),
            ("page", .num (effPage q)),
            ("totalPages", .num ((total + lim - 1) / lim))])] }

/-- `getArticles` (src/controllers/articleController.js lines 27-104). -/
def getArticles (db : Db) (isValidOid : String → Bool)
    (q : ArticlesQuery) : Response :=
  match resolveCategory db isValidOid q with
  | .notFound => categoryNotFoundResp
  | .noFilter => getArticlesWithFilter db q none
  | .filterOid oid => getArticlesWithFilter db q (some oid)

/- ### getArticleById (src/controllers/articleController.js 123-133) -/

/-- The populated article object placed in detail responses. -/
def articleDetail (db : Db) (a : Article) : JVal :=
  .obj [
    ("_id", .str a.oid),
    ("title", .str a.title),
    ("subtitle", optStr a.subtitle),
    ("articleImage", .str a.articleImage),
    ("articleType", .str a.articleType),
    ("description", optStr a.description),
    ("mediaUrl", optStr a.mediaUrl),
    ("category",
      match db.categories.find? (fun c => c.oid == a.category) with
      | some c => .obj [("_id", .str c.oid), ("categoryId", .str c.categoryId),
                        ("categoryName", .str c.categoryName)]
      | none => .null),
    ("tags", .arr (a.tags.map JVal.str)),
    ("author",
      match db.authors.find? (fun au => au.oid == a.author) with
      | some au => .obj [("_id", .str au.oid), ("authorId", .str au.authorId),
                         ("authorName", .str au.authorName)]
      | none => .null),
    ("publishDate", .num a.publishDate)]

/-- `getArticleById` (lines 123-133): `findById` (an invalid ObjectId
makes the cast throw, caught as 500); 404 when absent; on success,
`res.status(200).json({ status: 1, data: article })`. -/
def getArticleById (db : Db) (isValidOid : String → Bool)
    (id : String) : Response :=
  if ! isValidOid id then
    { code := 500
      body := [("status", .num 0), ("message", .str "Cast to ObjectId failed")] }
  else
    match db.articles.find? (fun a => a.oid == id) with
    | none =>
      { code := 404
        body := [("status", .num 0), ("message", .str "Article not found")] }
    | some a =>
      { code := 200, body := [("status", .num 1), ("data", articleDetail db a)] }

/-- The raw (unpopulated) article document, as `new Article(articleData)`
serialises it: `category` and `author` stay plain ObjectId strings. -/
def articleRaw (a : Article) : JVal :=
  .obj [
    ("_id", .str a.oid),
    ("title", .str a.title),
    ("subtitle", optStr a.subtitle),
    ("articleImage", .str a.articleImage),
    ("articleType", .str a.articleType),
    ("description", optStr a.description),
    ("mediaUrl", optStr a.mediaUrl),
    ("category", .str a.category),
    ("tags", .arr (a.tags.map JVal.str)),
    ("author", .str a.author),
    ("publishDate", .num a.publishDate)]

/- ### createArticle (src/controllers/articleController.js 157-206) -/

/-- The request body of `POST /api/articles`; `none` is an absent field. -/
structure CreateArticleBody where
  title : Option String
  subtitle : Option String
  articleImage : Option String
  articleType : Option String
  description : Option String
  mediaUrl : Option String
  category : Option String
  tags : Option (List String)
  author : Option String
deriving Repr, DecidableEq

/-- JavaScript falsiness of an optional string field: absent or empty. -/
def isBlank : Option String → Bool
  | none => true
  | some s => s == ""

/-- The article types accepted at lines 168-171. -/
def validArticleTypes : List String := ["text", "audio", "video"]

/-- `createArticle` (lines 157-206): presence check on title,
articleImage, category and author; articleType whitelist (destructuring
default "text"); ObjectId validity of category and author; then save —
`saveOk` abstracts whether `article.save()` succeeds (the schema may
still reject, e.g. a missing description) — answering
`res.status(201).json({ status: 1, data: article })` on success. -/
def createArticle (db : Db) (isValidOid : String → Bool)
    (b : CreateArticleBody) (freshOid : String) (now : Nat)
    (saveOk : Bool) : Response × Db :=
  let ty := b.articleType.getD "text"
  if isBlank b.title || isBlank b.articleImage
      || isBlank b.category || isBlank b.author then
    ({ code := 400
       body := [("status", .num 0),
                ("message", .str "Please provide all required fields")] }, db)
  else if ! validArticleTypes.contains ty then
    ({ code := 400
       body := [("status", .num 0), ("message", .str "Invalid article type")] },
     db)
  else if ! isValidOid (b.category.getD "") then
    ({ code := 400
       body := [("status", .num 0), ("message", .str "Invalid category ID")] },
     db)
  else if ! isValidOid (b.author.getD "") then
    ({ code := 400
       body := [("status", .num 0), ("message", .str "Invalid author ID")] },
     db)
  else
    let a : Article :=
      { oid := freshOid, title := b.title.getD "", subtitle := b.subtitle
        articleImage := b.articleImage.getD "", articleType := ty
        description := b.description, mediaUrl := b.mediaUrl
        category := b.category.getD "", tags := b.tags.getD []
        author := b.author.getD "", publishDate := now }
    if saveOk then
      ({ code := 201, body := [("status", .num 1), ("data", articleRaw a)] },
       { db with articles := db.articles ++ [a] })
    else
      ({ code := 500
         body := [("status", .num 0), ("message", .str "Error saving article"),
                  ("error", .str "save failed")] }, db)

/- ### Concrete rule set: registerValidation (src/validations/authValidations)

Joi validates fields in declaration order and, within a field, presence
before the other constraints; with the default abortEarly it stops at the
first failure. -/

/-- The request body of `POST /api/auth/register`. -/
structure RegisterBody where
  name : Option String
  email : Option String
  password : Option String
  confirmPassword : Option String
deriving Repr, DecidableEq

/-- The `registerValidation` Joi schema as an ordered rule list:
name required / length 2..30, email required / format, password
required / min 6, confirmPassword required / equal to password (with the
custom message `Passwords do not match`). -/
def registerValidationRules : List (Rule RegisterBody) :=
  [ { field := "name", check := fun b => b.name.isSome
      message := "\"name\" is required" },
    { field := "name"
      check := fun b => match b.name with
        | none => true
        | some s => decide (2 ≤ s.data.length) && decide (s.data.length ≤ 30)
      message := "\"name\" length must be at least 2 characters long" },
    { field := "email", check := fun b => b.email.isSome
      message := "\"email\" is required" },
    { field := "email"
      check := fun b => match b.email with
        | none => true
        | some s => s.data.contains '@'
      message := "\"email\" must be a valid email" },
    { field := "password", check := fun b => b.password.isSome
      message := "\"password\" is required" },
    { field := "password"
      check := fun b => match b.password with
        | none => true
        | some s => decide (6 ≤ s.data.length)
      message := "\"password\" length must be at least 6 characters long" },
    { field := "confirmPassword", check := fun b => b.confirmPassword.isSome
      message := "\"confirmPassword\" is required" },
    { field := "confirmPassword"
      check := fun b => match b.confirmPassword with
        | none => true
        | some s => s == b.password.getD ""
      message := "Passwords do not match" } ]

/-- An input for the register rule set whose confirmation mismatches. -/
def demoBadRegister : RegisterBody :=
  { name := some "A B", email := some "a@x.com"
    password := some "abcdef", confirmPassword := some "wrong" }

/-- A concrete verifier for the gate witness: accepts exactly "tok". -/
def demoVf : String → Except VerifyError Claims :=
  fun s => if s = "tok" then .ok { id := 1, email := "a@x.com" }
           else .error .Malformed

/-- A one-user store for the login and register witnesses. -/
def demoUsers : List User :=
  [{ id := 1, name := "Ann", email := "a@x.com", password := "digest1" }]

/-- Plain string equality standing in for `bcrypt.compare` in witnesses. -/
def demoCmp : String → String → Bool := fun p d => p == d

/-- A concrete verifier accepting exactly "abc", for the bearer witness. -/
def demoVf2 : String → Except VerifyError Claims :=
  fun s => if s = "abc" then .ok { id := 2, email := "b@x.com" }
           else .error .Malformed

/-- A demo author. -/
def demoAuthor : Author :=
  { oid := "ao1", authorId := "au1", authorName := "Ann"
    authorImage := "", description := "" }

/-- A demo category. -/
def demoCategory : Category :=
  { oid := "co1", categoryId := "cat-1", categoryName := "News" }

/-- A demo article referencing the demo author and category. -/
def demoArticle : Article :=
  { oid := "a1", title := "T", subtitle := none, articleImage := "img"
    articleType := "text", description := some "d", mediaUrl := none
    category := "co1", tags := ["x"], author := "ao1", publishDate := 100 }

/-- A one-article document store. -/
def demoDb : Db :=
  { authors := [demoAuthor], categories := [demoCategory]
    articles := [demoArticle] }

/-- An ObjectId validity test that accepts everything, for witnesses. -/
def allOids : String → Bool := fun _ => true

/-- A query for page 2 with no filters. -/
def demoQueryPage2 : ArticlesQuery :=
  { page := some 2, categoryId := none, tag := none, authorName := none
    articleType := none, limit := none }

/-- A fully valid create-article body, for the envelope counterexample. -/
def demoCreateBody : CreateArticleBody :=
  { title := some "T2", subtitle := none, articleImage := some "img2"
    articleType := some "text", description := some "d2", mediaUrl := none
    category := some "co1", tags := some ["y"], author := some "ao1" }

/-- The envelope every handler response actually satisfies: a status
field equal to 1 or 0 always, and a message field on every response with
a 4xx or 5xx code. -/
def envelopeOk (r : Response) : Prop :=
  (r.field "status" = some (.num 1) ∨ r.field "status" = some (.num 0)) ∧
  (400 ≤ r.code → r.hasField "message" = true)

/-- C1: for every rule set and every input with at least one failing
field, the validation middleware responds 400 with exactly the first
failing field's single error message and the handler is not invoked (the
store is returned unchanged, whatever the handler is); with no failing
field, the handler is invoked on the input and store. -/
theorem validateMW_fail_fast {α σ : Type} (rules : List (Rule α)) (input : α)
    (store : σ) :
    (((∃ r ∈ rules, r.check input = false) ↔
        ∃ r, firstError rules input = some r) ∧
      ∀ msg, (firstError rules input).map Rule.message = some msg →
        ∀ handler : α → σ → Response × σ,
          validateMW rules handler input store = (badRequest msg, store)) ∧
    (firstError rules input = none →
      ∀ handler : α → σ → Response × σ,
        validateMW rules handler input store = handler input store) := by
  refine ⟨⟨⟨?_, ?_⟩, ?_⟩, ?_⟩
  · rintro ⟨r, hmem, hr⟩
    rcases h : firstError rules input with _ | r'
    · rw [firstError, List.find?_eq_none] at h
      have := h r hmem
      simp [hr] at this
    · exact ⟨r', rfl⟩
  · rintro ⟨r, hr⟩
    rw [firstError] at hr
    have hmem := List.mem_of_find?_eq_some hr
    have hp := List.find?_some hr
    refine ⟨r, hmem, ?_⟩
    simpa using hp
  · intro msg hmsg handler
    rcases h : firstError rules input with _ | r
    · rw [h] at hmsg; simp at hmsg
    · rw [h] at hmsg
      have hm : r.message = msg := by simpa using hmsg
      simp [validateMW, h, hm]
  · intro h handler
    simp [validateMW, h]

/-- C1 witness: on the register rule set with a mismatched confirmation,
the middleware answers 400 "Passwords do not match" and leaves the store
alone, for a concrete handler. -/
theorem validateMW_fail_fast_witness :
    validateMW registerValidationRules
      (fun _ (s : Nat) => ({ code := 200, body := [] }, s + 1))
      demoBadRegister 7
      = (badRequest "Passwords do not match", 7) :=
  (validateMW_fail_fast registerValidationRules demoBadRegister 7).1.2
    "Passwords do not match" (by decide) _

/-- C2: a token issued with the repository's `expiresIn: '1h'` encodes an
expiry of exactly issuance time plus one hour; verification at any time
not past that expiry yields the claims, and at any time past it fails
with `Expired`. -/
theorem issue_ttl_verification (secret : String) (c : Claims) (now t : Nat) :
    (issue secret c now).exp = now + tokenTTL ∧
    (t ≤ now + tokenTTL →
      verifyTok secret (issue secret c now) t = .ok c) ∧
    (now + tokenTTL < t →
      verifyTok secret (issue secret c now) t = .error .Expired) := by
  refine ⟨rfl, ?_, ?_⟩
  · intro h
    simp [verifyTok, issue, Nat.not_lt_of_le h]
  · intro h
    simp [verifyTok, issue, h]

/-- C2 witness: a token issued at time 0 under secret "s" verifies at its
exact expiry (3600) and is Expired at 3601. -/
theorem issue_ttl_verification_witness :
    verifyTok "s" (issue "s" { id := 1, email := "a@x.com" } 0) 3600
      = .ok { id := 1, email := "a@x.com" } ∧
    verifyTok "s" (issue "s" { id := 1, email := "a@x.com" } 0) 3601
      = .error .Expired :=
  ⟨(issue_ttl_verification "s" { id := 1, email := "a@x.com" } 0 3600).2.1
      (by decide),
   (issue_ttl_verification "s" { id := 1, email := "a@x.com" } 0 3601).2.2
      (by decide)⟩

/-- C3: the authentication gate calls the downstream handler exactly when
a token was extracted from the Authorization header and verification
succeeded; a missing token yields 401 "No token provided", a failed
verification yields 401 "Invalid token", and on success the decoded
identity is what the gate attaches. -/
theorem verifyToken_gate (header : Option String)
    (vf : String → Except VerifyError Claims) :
    ((∃ c, verifyToken header vf = .authorized c) ↔
      ∃ t c, extractToken header = some t ∧ vf t = .ok c) ∧
    (extractToken header = none →
      verifyToken header vf = .rejected noTokenResp) ∧
    (∀ t e, extractToken header = some t → vf t = .error e →
      verifyToken header vf = .rejected invalidTokenResp) ∧
    (∀ t c, extractToken header = some t → vf t = .ok c →
      verifyToken header vf = .authorized c) := by
  refine ⟨?_, ?_, ?_, ?_⟩
  · constructor
    · rintro ⟨c, hc⟩
      rcases h : extractToken header with _ | t
      · simp [verifyToken, h] at hc
      · rcases hv : vf t with e | c'
        · simp [verifyToken, h, hv] at hc
        · exact ⟨t, c', rfl, hv⟩
    · rintro ⟨t, c, ht, hv⟩
      exact ⟨c, by simp [verifyToken, ht, hv]⟩
  · intro h
    simp [verifyToken, h]
  · intro t e ht hv
    simp [verifyToken, ht, hv]
  · intro t c ht hv
    simp [verifyToken, ht, hv]

/-- C3 witness: with a Bearer header carrying "tok", the gate authorizes
with the decoded identity; with no header it rejects with the no-token
response. -/
theorem verifyToken_gate_witness :
    verifyToken (some "Bearer tok") demoVf
      = .authorized { id := 1, email := "a@x.com" } ∧
    verifyToken none demoVf = .rejected noTokenResp :=
  ⟨(verifyToken_gate (some "Bearer tok") demoVf).2.2.2 "tok"
      { id := 1, email := "a@x.com" } (by decide) (by simp [demoVf]),
   (verifyToken_gate none demoVf).2.1 rfl⟩

/-- C4: a login whose email is stored but whose password mismatches and a
login whose email is absent produce identical responses: the same 401
with status 0 and the "Invalid credentials" message. -/
theorem login_no_oracle (store : List User) (e1 p1 e2 p2 : String)
    (cmp : String → String → Bool) (secret : String) (now : Nat)
    (u : User) (hu : findOneByEmail store e1 = some u)
    (hp : cmp p1 u.password = false)
    (habs : findOneByEmail store e2 = none) :
    login store e1 p1 cmp secret now = login store e2 p2 cmp secret now ∧
    login store e1 p1 cmp secret now = invalidCredentials ∧
    invalidCredentials.code = 401 ∧
    invalidCredentials.field "status" = some (.num 0) ∧
    invalidCredentials.field "message" = some (.str "Invalid credentials") := by
  refine ⟨?_, ?_, rfl, rfl, rfl⟩ <;> simp [login, hu, hp, habs]

/-- C4 witness: on the concrete store, wrong-password and unknown-email
logins coincide and equal the invalid-credentials response. -/
theorem login_no_oracle_witness :
    login demoUsers "a@x.com" "wrong" demoCmp "s" 0
      = login demoUsers "b@x.com" "whatever" demoCmp "s" 0 ∧
    login demoUsers "a@x.com" "wrong" demoCmp "s" 0 = invalidCredentials :=
  ⟨(login_no_oracle demoUsers "a@x.com" "wrong" "b@x.com" "whatever"
      demoCmp "s" 0
      { id := 1, name := "Ann", email := "a@x.com", password := "digest1" }
      rfl rfl rfl).1,
   (login_no_oracle demoUsers "a@x.com" "wrong" "b@x.com" "whatever"
      demoCmp "s" 0
      { id := 1, name := "Ann", email := "a@x.com", password := "digest1" }
      rfl rfl rfl).2.1⟩

/-- C5: registering an email already in the store answers a 400 conflict
with the "Email already in use" message, persists nothing (the store is
returned unchanged) and carries no data (hence no token), whatever the
hash, secret, time or fresh id; registering a new email answers 201 whose
data holds exactly the issued token and the public profile fields id,
email and name (and no digest), and appends the one new user. -/
theorem register_conflict_success (store : List User)
    (name email password : String) (hash : String → String) (secret : String)
    (now freshId : Nat) :
    ((∃ u, findOneByEmail store email = some u) →
      register store name email password hash secret now freshId
        = ({ code := 400
             body := [("status", .num 0),
                      ("message", .str "Email already in use")] }, store) ∧
      ∀ hash2 secret2 now2 freshId2,
        (register store name email password hash2 secret2 now2 freshId2).1.hasField
          "data" = false) ∧
    (findOneByEmail store email = none →
      register store name email password hash secret now freshId
        = ({ code := 201
             body := [("status", .num 1),
               ("message", .str "Registration successful"),
               ("data", .obj [
                 ("token", .str (encodeToken
                   (issue secret { id := freshId, email := email } now))),
                 ("user", .obj [("id", .num freshId), ("email", .str email),
                                ("name", .str name)])])] },
           store ++ [{ id := freshId, name := name, email := email
                       password := hash password }])) := by
  constructor
  · rintro ⟨u, hu⟩
    constructor
    · simp [register, hu]
    · intro hash2 secret2 now2 freshId2
      simp [register, hu, Response.hasField, Response.field]
  · intro h
    simp [register, h, userView]

/-- C5 witness: on the concrete store, re-registering the stored email
conflicts and leaves the store unchanged; registering a fresh email
answers 201 with token and public profile and appends the user. -/
theorem register_conflict_success_witness :
    register demoUsers "Bob" "a@x.com" "pw1234" (fun s => s ++ "#h") "s" 5 2
      = ({ code := 400
           body := [("status", .num 0),
                    ("message", .str "Email already in use")] }, demoUsers) ∧
    (register demoUsers "Bob" "b@x.com" "pw1234" (fun s => s ++ "#h") "s" 5 2).2
      = demoUsers ++ [{ id := 2, name := "Bob", email := "b@x.com"
                        password := "pw1234#h" }] :=
  ⟨((register_conflict_success demoUsers "Bob" "a@x.com" "pw1234"
      (fun s => s ++ "#h") "s" 5 2).1
      ⟨{ id := 1, name := "Ann", email := "a@x.com", password := "digest1" },
        rfl⟩).1,
   congrArg Prod.snd
     ((register_conflict_success demoUsers "Bob" "b@x.com" "pw1234"
        (fun s => s ++ "#h") "s" 5 2).2 rfl)⟩

/-- Removing a pattern from a string that starts with it leaves exactly
the remainder. -/
theorem replaceFirst_append (pat rest : List Char) :
    replaceFirst pat (pat ++ rest) = rest := by
  cases pat with
  | nil =>
    cases rest with
    | nil => rfl
    | cons c r => simp [replaceFirst, List.isPrefixOf]
  | cons p ps =>
    have hpre : (p :: ps).isPrefixOf (p :: (ps ++ rest)) = true := by
      rw [List.isPrefixOf_iff_prefix]
      exact (p :: ps).prefix_append rest
    have hdrop : List.drop (p :: ps).length (p :: (ps ++ rest)) = rest := by
      exact List.drop_left (p :: ps) rest
    show replaceFirst (p :: ps) (p :: (ps ++ rest)) = rest
    rw [replaceFirst]
    simp [hpre, hdrop]

/-- A string without any occurrence of the pattern is untouched by
`replaceFirst`. -/
theorem replaceFirst_of_not_contains (pat s : List Char)
    (h : containsSeq pat s = false) : replaceFirst pat s = s := by
  induction s with
  | nil => rfl
  | cons c rest ih =>
    rw [containsSeq, Bool.or_eq_false_iff] at h
    rw [replaceFirst, if_neg (by simp [h.1]), ih h.2]

/-- C9: the gate does not enforce the bearer scheme.  For any remainder
`u`, a header `"Bearer " ++ u` yields exactly `u` as the token (empty
remainder means no token) — only the first occurrence of `"Bearer "` is
removed, the rest passes verbatim; a header that never contains
`"Bearer "` is used as the token unchanged, so a bare valid token is
treated exactly as a prefixed one; and the header `"Bearer "` itself is
treated as no token provided. -/
theorem verifyToken_bearer_not_enforced (t u : String)
    (vf : String → Except VerifyError Claims)
    (hnb : containsSeq bearerChars t.data = false) :
    extractToken (some ("Bearer " ++ u)) = (if u = "" then none else some u) ∧
    extractToken (some t) = (if t = "" then none else some t) ∧
    verifyToken (some ("Bearer " ++ t)) vf = verifyToken (some t) vf ∧
    verifyToken (some "Bearer ") vf = .rejected noTokenResp := by
  have hext : ∀ v : String,
      extractToken (some ("Bearer " ++ v)) = (if v = "" then none else some v) := by
    intro v
    show (if (⟨replaceFirst bearerChars ("Bearer " ++ v).data⟩ : String) = ""
          then none else some (⟨replaceFirst bearerChars ("Bearer " ++ v).data⟩ : String))
        = (if v = "" then none else some v)
    have : replaceFirst bearerChars ("Bearer " ++ v).data = v.data := by
      rw [show ("Bearer " ++ v).data = bearerChars ++ v.data from rfl]
      exact replaceFirst_append bearerChars v.data
    rw [this]
  have hplain : extractToken (some t) = (if t = "" then none else some t) := by
    show (if (⟨replaceFirst bearerChars t.data⟩ : String) = ""
          then none else some (⟨replaceFirst bearerChars t.data⟩ : String))
        = (if t = "" then none else some t)
    rw [replaceFirst_of_not_contains bearerChars t.data hnb]
  refine ⟨hext u, hplain, ?_, ?_⟩
  · rw [verifyToken, verifyToken, hext t, hplain]
  · have h0 : extractToken (some ("Bearer " ++ "")) = none := by
      rw [hext ""]; rfl
    rw [verifyToken]
    rw [show ("Bearer " : String) = "Bearer " ++ "" from rfl, h0]

/-- C9 witness: the gate treats header "abc" exactly like header
"Bearer abc" (authorizing when the verifier accepts "abc"), and header
"Bearer " as no token. -/
theorem verifyToken_bearer_not_enforced_witness :
    verifyToken (some "Bearer abc") demoVf2 = verifyToken (some "abc") demoVf2 ∧
    verifyToken (some "Bearer ") demoVf2 = .rejected noTokenResp :=
  ⟨(verifyToken_bearer_not_enforced "abc" "x" demoVf2 (by decide)).2.2.1,
   (verifyToken_bearer_not_enforced "abc" "x" demoVf2 (by decide)).2.2.2⟩

/-- For any page of at least 1, once the category filter resolves (or no
category filter was given), the handler answers the no-articles 404
exactly when the selected page — after skip/limit and the author-name
post-filter — is empty. -/
theorem getArticlesWithFilter_noArticles_iff (db : Db) (q : ArticlesQuery)
    (cf : Option String) (hpage : 1 ≤ effPage q) :
    (getArticlesWithFilter db q cf = noArticlesResp ↔
      selectedArticles db cf q = []) := by
  have hneg : ¬((effPage q : Int) - 1 < 0) := by
    have h1 : (1 : Int) ≤ effPage q := by exact_mod_cast hpage
    omega
  rw [getArticlesWithFilter]
  simp only [if_neg hneg]
  rcases h : selectedArticles db cf q with _ | ⟨a, rest⟩
  · simp
  · rw [if_neg (by simp)]
    constructor
    · intro he
      have hc := congrArg Response.code he
      simp [noArticlesResp] at hc
    · intro he
      exact absurd he (List.cons_ne_nil a rest)

/-- C10: for every filter combination and every page number of at least
1 whose selected page of results is empty — pages past the end, or pages
emptied by the author-name post-filter — `getArticles` responds with the
404 no-articles response rather than an empty success list (and
conversely, the no-articles 404 only arises from an empty page). -/
theorem getArticles_empty_page_404 (db : Db) (v : String → Bool)
    (q : ArticlesQuery) (hpage : 1 ≤ effPage q) :
    (resolveCategory db v q = .noFilter →
      (getArticles db v q = noArticlesResp ↔
        selectedArticles db none q = [])) ∧
    (∀ oid, resolveCategory db v q = .filterOid oid →
      (getArticles db v q = noArticlesResp ↔
        selectedArticles db (some oid) q = [])) := by
  constructor
  · intro h
    rw [getArticles, h]
    exact getArticlesWithFilter_noArticles_iff db q none hpage
  · intro oid h
    rw [getArticles, h]
    exact getArticlesWithFilter_noArticles_iff db q (some oid) hpage

/-- C10 witness: on the one-article store, page 2 with no filters is past
the end and yields the no-articles 404. -/
theorem getArticles_empty_page_404_witness :
    getArticles demoDb allOids demoQueryPage2 = noArticlesResp :=
  ((getArticles_empty_page_404 demoDb allOids demoQueryPage2
      (by decide)).1 rfl).mpr rfl

/-- C6 counterexample: the uniform envelope fails at concrete inputs.
`getArticleById`'s 200 and `createArticle`'s 201 success responses
(`res.json({ status: 1, data: article })`) carry a status field but no
message field, and the protected test route's 200 response
(`res.json({ message, user })`) carries no status field at all. -/
theorem uniform_envelope_counterexample :
    (getArticleById demoDb allOids "a1").code = 200 ∧
    (getArticleById demoDb allOids "a1").hasField "status" = true ∧
    (getArticleById demoDb allOids "a1").hasField "message" = false ∧
    (createArticle demoDb allOids demoCreateBody "a2" 50 true).1.code = 201 ∧
    (createArticle demoDb allOids demoCreateBody "a2" 50 true).1.hasField
      "status" = true ∧
    (createArticle demoDb allOids demoCreateBody "a2" 50 true).1.hasField
      "message" = false ∧
    (testAuth { id := 1, email := "a@x.com" }).code = 200 ∧
    (testAuth { id := 1, email := "a@x.com" }).hasField "status" = false :=
  ⟨rfl, rfl, rfl, rfl, rfl, rfl, rfl, rfl⟩

/-- Envelope of every branch of `getArticlesWithFilter`. -/
theorem getArticlesWithFilter_envelope (db : Db) (q : ArticlesQuery)
    (cf : Option String) : envelopeOk (getArticlesWithFilter db q cf) := by
  simp only [getArticlesWithFilter]
  split
  · exact ⟨Or.inr rfl, fun _ => rfl⟩
  · split
    · exact ⟨Or.inr rfl, fun _ => rfl⟩
    · exact ⟨Or.inl rfl, fun hc => by simp at hc⟩

/-- C6 amended: the envelope is not uniform.  Every response of the
embedded controller handlers (validation middleware, login, register, the
gate rejections, getArticles, getArticleById, createArticle) carries a
status field equal to 1 or 0, and every response among them with a code
of at least 400 also carries a message field; but the 200 response of
`getArticleById` and the 201 response of `createArticle` omit the message
field, and the protected test route's 200 response omits the status field
entirely while carrying a message. -/
theorem responses_envelope :
    (∀ msg, envelopeOk (badRequest msg)) ∧
    envelopeOk invalidCredentials ∧
    envelopeOk noTokenResp ∧
    envelopeOk invalidTokenResp ∧
    (∀ store email password cmp secret now,
      envelopeOk (login store email password cmp secret now)) ∧
    (∀ store name email password hash secret now freshId,
      envelopeOk
        (register store name email password hash secret now freshId).1) ∧
    (∀ db v q, envelopeOk (getArticles db v q)) ∧
    (∀ db v i, envelopeOk (getArticleById db v i) ∧
      ((getArticleById db v i).code = 200 →
        (getArticleById db v i).hasField "message" = false)) ∧
    (∀ db v b oid now saveOk,
      envelopeOk (createArticle db v b oid now saveOk).1 ∧
      ((createArticle db v b oid now saveOk).1.code = 201 →
        (createArticle db v b oid now saveOk).1.hasField "message" = false)) ∧
    (∀ u, (testAuth u).hasField "status" = false ∧
      (testAuth u).hasField "message" = true) := by
  refine ⟨fun msg => ⟨Or.inr rfl, fun _ => rfl⟩,
    ⟨Or.inr rfl, fun _ => rfl⟩, ⟨Or.inr rfl, fun _ => rfl⟩,
    ⟨Or.inr rfl, fun _ => rfl⟩, ?_, ?_, ?_, ?_, ?_, fun u => ⟨rfl, rfl⟩⟩
  · intro store email password cmp secret now
    rw [login]
    split
    · exact ⟨Or.inr rfl, fun _ => rfl⟩
    · split
      · exact ⟨Or.inr rfl, fun _ => rfl⟩
      · exact ⟨Or.inl rfl, fun hc => by simp at hc⟩
  · intro store name email password hash secret now freshId
    rw [register]
    split
    · exact ⟨Or.inr rfl, fun _ => rfl⟩
    · exact ⟨Or.inl rfl, fun hc => by simp at hc⟩
  · intro db v q
    rw [getArticles]
    split
    · exact ⟨Or.inr rfl, fun _ => rfl⟩
    · exact getArticlesWithFilter_envelope db q none
    · exact getArticlesWithFilter_envelope db q _
  · intro db v i
    rw [getArticleById]
    split
    · exact ⟨⟨Or.inr rfl, fun _ => rfl⟩, fun hc => by simp at hc⟩
    · split
      · exact ⟨⟨Or.inr rfl, fun _ => rfl⟩, fun hc => by simp at hc⟩
      · exact ⟨⟨Or.inl rfl, fun hc => by simp at hc⟩, fun _ => rfl⟩
  · intro db v b oid now saveOk
    simp only [createArticle]
    split
    · exact ⟨⟨Or.inr rfl, fun _ => rfl⟩, fun hc => by simp at hc⟩
    · split
      · exact ⟨⟨Or.inr rfl, fun _ => rfl⟩, fun hc => by simp at hc⟩
      · split
        · exact ⟨⟨Or.inr rfl, fun _ => rfl⟩, fun hc => by simp at hc⟩
        · split
          · exact ⟨⟨Or.inr rfl, fun _ => rfl⟩, fun hc => by simp at hc⟩
          · split
            · exact ⟨⟨Or.inl rfl, fun hc => by simp at hc⟩, fun _ => rfl⟩
            · exact ⟨⟨Or.inr rfl, fun _ => rfl⟩, fun hc => by simp at hc⟩

/-- C6 amended witness: the 400 validation response has status 0 and, its
code being at least 400, a message field. -/
theorem responses_envelope_witness :
    (badRequest "m").hasField "message" = true :=
  (responses_envelope.1 "m").2 (by decide)

/-- C7 counterexample: with no signing secret configured, startup still
succeeds and the server listens on the default port — it does begin
accepting requests. -/
theorem startup_no_secret_still_listens :
    startup { jwtSecret := none, mongodbUri := some "mongodb://localhost/db"
              port := none } = .listening 5000 := rfl

/-- C7 amended: startup never checks the configuration: whatever the
signing secret (present or absent), the server starts and listens on the
configured port, 5000 by default; a missing secret can only surface later
when a token is signed or verified. -/
theorem startup_always_listens (cfg : Config) :
    startup cfg = .listening (cfg.port.getD 5000) := rfl
